import Mathlib

/-!
Verification development for the release-tracker repository.

The Python sources under src/ are shallowly embedded: pure functions become
Lean functions, the orchestrator's side effects (notifier sends, asset
downloads, state-store writes, file cleanup) become an explicit event trace
and explicit world state, and Python exceptions become Except / tagged
outcome values.  All definitions are translated from the source files named
in the comments next to them.
-/

namespace ReleaseTracker

/-- src/watcher/base.py, class ReleaseAsset. -/
structure ReleaseAsset where
  name : String
  download_url : String
  api_url : String
deriving DecidableEq

/-- src/watcher/base.py, class ReleaseInfo. -/
structure ReleaseInfo where
  tag : String
  assets : List ReleaseAsset
  source_url : Option String
deriving DecidableEq

/-- Outcome of one call to watcher.fetch_latest_release inside
RepoProcessor._fetch_latest_release (src/main.py lines 116-129): the call can
raise, return a falsy/None release, or return a release. -/
inductive FetchOutcome where
  | raises
  | noRelease
  | found (r : ReleaseInfo)
deriving DecidableEq

/-- Outcome of one notifier.send call inside notify_all (src/main.py lines
48-60): send returns True, returns False, or raises. -/
inductive SendOutcome where
  | ok
  | failed
  | raises
deriving DecidableEq

/-- Observable side effects of processing one repository entry. -/
inductive Event where
  | download (name : String)
  | downloadFailed (name : String)
  | sendAttempt (i : Nat)
  | cleanup (path : String)
  | storeWrite (key tag : String)
deriving DecidableEq

def isSendEvent : Event → Bool
  | .sendAttempt _ => true
  | _ => false

def isStoreWriteEvent : Event → Bool
  | .storeWrite _ _ => true
  | _ => false

/-- Persistence backend contract (src/persistence/base.py) modelled as an
association list from persistence key to last tag; read (get_last_release)
returns the first binding. -/
def get_last_release (store : List (String × String)) (repo : String) : Option String :=
  store.lookup repo

/-- Backend write: bind repo to tag (src/persistence/base.py set_last_release
contract; the concrete stores are modelled separately below). -/
def set_last_release (store : List (String × String)) (repo tag : String) :
    List (String × String) :=
  (repo, tag) :: store.filter (fun kv => kv.1 ≠ repo)

/-- src/main.py lines 131-145, RepoProcessor._is_new_release: an entry is
treated as new unless the persisted tag equals the fetched tag; when they are
equal the FORCE_NOTIFY flag (presence of the environment variable) decides. -/
def is_new_release (last_tag : Option String) (tag : String) (force_notify : Bool) : Bool :=
  if last_tag = some tag then force_notify else true

/-- Destination path used by process_assets (src/main.py line 30):
Path("downloads") / asset.name. -/
def asset_dest (a : ReleaseAsset) : String :=
  "downloads/" ++ a.name

/-- src/main.py lines 21-38, process_assets: when upload_assets is off return
no paths; otherwise try to download each asset (dl gives the per-URL download
outcome; a failed download is caught, logged, and yields no path).  Returns
the attachment paths of the successful downloads and the event trace. -/
def process_assets (upload_assets : Bool) (assets : List ReleaseAsset)
    (dl : String → Bool) : List String × List Event :=
  if upload_assets then
    ((assets.filter (fun a => dl a.api_url)).map asset_dest,
     assets.map (fun a =>
       if dl a.api_url then Event.download a.name else Event.downloadFailed a.name))
  else ([], [])

/-- The per-notifier body of notify_all (src/main.py lines 48-60): render and
send are wrapped in try/except, so the loop continues whatever the outcome. -/
def send_result (o : SendOutcome) : Except Unit Bool :=
  match o with
  | .ok => Except.ok true
  | .failed => Except.ok false
  | .raises => Except.error ()

/-- The notifier loop of notify_all: each configured notifier gets exactly one
send attempt; the surrounding try/except swallows send_result, so the
recursion continues for every outcome. -/
def notify_loop (i : Nat) : List SendOutcome → List Event
  | [] => []
  | o :: rest =>
    let _ignored : Except Unit Bool := send_result o
    Event.sendAttempt i :: notify_loop (i + 1) rest

/-- src/main.py lines 41-60, notify_all. -/
def notify_all (outcomes : List SendOutcome) : List Event :=
  notify_loop 0 outcomes

/-- One repository entry together with the behaviour of its collaborators
(watcher fetch outcome, per-asset download outcomes, per-notifier send
outcomes, and whether the notify step raises out of notify_all). -/
structure EntryCtx where
  key : String
  fetch : FetchOutcome
  force_notify : Bool
  upload_assets : Bool
  dl : String → Bool
  notifiers : List SendOutcome
  notify_raises : Bool

/-- World state threaded through the orchestrator: the persistence store and
the set of asset files present on local storage. -/
structure WorldState where
  store : List (String × String)
  files : List String

/-- src/main.py lines 148-163, RepoProcessor._process_and_notify: download
assets, notify, and in a finally-block unlink every downloaded attachment
whether or not the notify step succeeded or raised.  Returns whether an
exception escaped, the event trace, and the resulting local files. -/
def process_and_notify (e : EntryCtx) (rel : ReleaseInfo) (files : List String) :
    Except Unit Unit × List Event × List String :=
  let pa := process_assets e.upload_assets rel.assets e.dl
  let notify_events := if e.notify_raises then [] else notify_all e.notifiers
  let res : Except Unit Unit := if e.notify_raises then Except.error () else Except.ok ()
  (res,
   pa.2 ++ notify_events ++ pa.1.map Event.cleanup,
   (files ++ pa.1).filter (fun f => decide (f ∉ pa.1)))

/-- src/main.py lines 174-196, RepoProcessor.process: a raising fetch is
caught inside _fetch_latest_release (returning None) and a falsy release
returns early; otherwise _is_new_release gates _process_and_notify followed by
_update_persistence, and any exception escaping the body is caught at the
process boundary (so a raise inside the notify step skips the store write). -/
def process (e : EntryCtx) (w : WorldState) : WorldState × List Event :=
  match e.fetch with
  | .raises => (w, [])
  | .noRelease => (w, [])
  | .found rel =>
    if is_new_release (get_last_release w.store e.key) rel.tag e.force_notify then
      match process_and_notify e rel w.files with
      | (Except.ok _, evs, files') =>
        (⟨set_last_release w.store e.key rel.tag, files'⟩,
         evs ++ [Event.storeWrite e.key rel.tag])
      | (Except.error _, evs, files') => (⟨w.store, files'⟩, evs)
    else (w, [])

/-- src/main.py lines 301-315, the per-entry loop of run_full_check: each
entry is processed inside its own try/except, so the loop always reaches the
remaining entries. -/
def run_entries (es : List EntryCtx) (w : WorldState) : WorldState × List (List Event) :=
  match es with
  | [] => (w, [])
  | e :: rest =>
    let r1 := process e w
    let r2 := run_entries rest r1.1
    (r2.1, r1.2 :: r2.2)

theorem notify_loop_eq (k : Nat) (outs : List SendOutcome) :
    notify_loop k outs = (List.range' k outs.length).map Event.sendAttempt := by
  induction outs generalizing k with
  | nil => rfl
  | cons o rest ih => simp [notify_loop, List.range', ih]

theorem notify_all_eq (outs : List SendOutcome) :
    notify_all outs = (List.range outs.length).map Event.sendAttempt := by
  rw [notify_all, notify_loop_eq, List.range_eq_range']

theorem process_and_notify_ok (e : EntryCtx) (rel : ReleaseInfo) (files : List String)
    (h : e.notify_raises = false) :
    process_and_notify e rel files =
      (Except.ok (),
       (process_assets e.upload_assets rel.assets e.dl).2 ++ notify_all e.notifiers ++
         (process_assets e.upload_assets rel.assets e.dl).1.map Event.cleanup,
       (files ++ (process_assets e.upload_assets rel.assets e.dl).1).filter
         (fun f => decide (f ∉ (process_assets e.upload_assets rel.assets e.dl).1))) := by
  simp [process_and_notify, h]

theorem process_assets_no_send (u : Bool) (as : List ReleaseAsset) (dl : String → Bool) :
    ((process_assets u as dl).2).filter isSendEvent = [] := by
  rw [List.filter_eq_nil_iff]
  intro ev hev
  rcases u with _ | _ <;> simp [process_assets] at hev
  obtain ⟨a, -, ha⟩ := hev
  rcases hdl : dl a.api_url <;> simp [hdl] at ha <;> simp [← ha, isSendEvent]

theorem process_assets_no_write (u : Bool) (as : List ReleaseAsset) (dl : String → Bool) :
    ((process_assets u as dl).2).filter isStoreWriteEvent = [] := by
  rw [List.filter_eq_nil_iff]
  intro ev hev
  rcases u with _ | _ <;> simp [process_assets] at hev
  obtain ⟨a, -, ha⟩ := hev
  rcases hdl : dl a.api_url <;> simp [hdl] at ha <;> simp [← ha, isStoreWriteEvent]

theorem cleanup_no_send (ps : List String) :
    (ps.map Event.cleanup).filter isSendEvent = [] := by
  rw [List.filter_eq_nil_iff]
  intro ev hev
  obtain ⟨p, -, hp⟩ := List.mem_map.mp hev
  simp [← hp, isSendEvent]

theorem cleanup_no_write (ps : List String) :
    (ps.map Event.cleanup).filter isStoreWriteEvent = [] := by
  rw [List.filter_eq_nil_iff]
  intro ev hev
  obtain ⟨p, -, hp⟩ := List.mem_map.mp hev
  simp [← hp, isStoreWriteEvent]

theorem notify_all_all_send (outs : List SendOutcome) :
    (notify_all outs).filter isSendEvent = notify_all outs := by
  rw [List.filter_eq_self]
  intro ev hev
  rw [notify_all_eq] at hev
  obtain ⟨i, -, hi⟩ := List.mem_map.mp hev
  simp [← hi, isSendEvent]

theorem notify_all_no_write (outs : List SendOutcome) :
    (notify_all outs).filter isStoreWriteEvent = [] := by
  rw [List.filter_eq_nil_iff]
  intro ev hev
  rw [notify_all_eq] at hev
  obtain ⟨i, -, hi⟩ := List.mem_map.mp hev
  simp [← hi, isStoreWriteEvent]


/-- C1: for an entry whose fetched tag equals the persisted lastTag, if the
FORCE_NOTIFY environment variable is absent the entry is a pure no-op (no
notifier send, no asset download, no state-store write); if FORCE_NOTIFY is
present (any value — only presence is tested), notifications are sent to every
configured notifier and the store is re-written with the same tag value. -/
theorem c1_up_to_date_noop_unless_forced
    (e : EntryCtx) (w : WorldState) (rel : ReleaseInfo)
    (hf : e.fetch = FetchOutcome.found rel)
    (heq : get_last_release w.store e.key = some rel.tag) :
    (e.force_notify = false → process e w = (w, [])) ∧
    (e.force_notify = true → e.notify_raises = false →
      (process e w).1.store = set_last_release w.store e.key rel.tag ∧
      Event.storeWrite e.key rel.tag ∈ (process e w).2 ∧
      ∀ i, i < e.notifiers.length → Event.sendAttempt i ∈ (process e w).2) := by
  constructor
  · intro hforce
    simp [process, hf, is_new_release, heq, hforce]
  · intro hforce hnr
    have hpn := process_and_notify_ok e rel w.files hnr
    have hp : process e w =
        (⟨set_last_release w.store e.key rel.tag,
          (w.files ++ (process_assets e.upload_assets rel.assets e.dl).1).filter
            (fun f => decide (f ∉ (process_assets e.upload_assets rel.assets e.dl).1))⟩,
         ((process_assets e.upload_assets rel.assets e.dl).2 ++ notify_all e.notifiers ++
           (process_assets e.upload_assets rel.assets e.dl).1.map Event.cleanup) ++
           [Event.storeWrite e.key rel.tag]) := by
      simp [process, hf, is_new_release, heq, hforce, hpn]
    refine ⟨by rw [hp], by rw [hp]; simp, ?_⟩
    intro i hi
    rw [hp]
    refine List.mem_append_left _ (List.mem_append_left _ (List.mem_append_right _ ?_))
    rw [notify_all_eq]
    exact List.mem_map.mpr ⟨i, List.mem_range.mpr hi, rfl⟩

theorem c1_up_to_date_noop_unless_forced_witness :
    process
      { key := "github_x", fetch := FetchOutcome.found ⟨"1.0", [], none⟩,
        force_notify := false, upload_assets := false, dl := fun _ => true,
        notifiers := [SendOutcome.ok, SendOutcome.failed], notify_raises := false }
      ⟨[("github_x", "1.0")], []⟩
      = (⟨[("github_x", "1.0")], []⟩, []) :=
  (c1_up_to_date_noop_unless_forced _ _ ⟨"1.0", [], none⟩ rfl (by decide)).1 rfl

/-- C2: for an entry whose fetched tag differs from the persisted lastTag
(including lastTag absent), every configured notifier receives exactly one
send attempt regardless of the other notifiers' outcomes (failure or raise),
and afterwards — strictly after all notification attempts, with no earlier
write in the trace — the state store is written exactly once with the fetched
tag. -/
theorem c2_new_release_act_then_commit
    (e : EntryCtx) (w : WorldState) (rel : ReleaseInfo)
    (hf : e.fetch = FetchOutcome.found rel)
    (hne : get_last_release w.store e.key ≠ some rel.tag)
    (hnr : e.notify_raises = false) :
    ∃ pre,
      (process e w).2 = pre ++ [Event.storeWrite e.key rel.tag] ∧
      pre.filter isStoreWriteEvent = [] ∧
      pre.filter isSendEvent = (List.range e.notifiers.length).map Event.sendAttempt ∧
      (process e w).1.store = set_last_release w.store e.key rel.tag := by
  have hpn := process_and_notify_ok e rel w.files hnr
  have hnew : is_new_release (get_last_release w.store e.key) rel.tag e.force_notify = true := by
    simp [is_new_release, hne]
  have hp : process e w =
      (⟨set_last_release w.store e.key rel.tag,
        (w.files ++ (process_assets e.upload_assets rel.assets e.dl).1).filter
          (fun f => decide (f ∉ (process_assets e.upload_assets rel.assets e.dl).1))⟩,
       ((process_assets e.upload_assets rel.assets e.dl).2 ++ notify_all e.notifiers ++
         (process_assets e.upload_assets rel.assets e.dl).1.map Event.cleanup) ++
         [Event.storeWrite e.key rel.tag]) := by
    simp [process, hf, hnew, hpn]
  refine ⟨(process_assets e.upload_assets rel.assets e.dl).2 ++ notify_all e.notifiers ++
      (process_assets e.upload_assets rel.assets e.dl).1.map Event.cleanup,
      by rw [hp], ?_, ?_, by rw [hp]⟩
  · simp [List.filter_append, process_assets_no_write, notify_all_no_write, cleanup_no_write]
  · simp [List.filter_append, process_assets_no_send, notify_all_all_send, cleanup_no_send,
      notify_all_eq, isSendEvent]

theorem c2_new_release_act_then_commit_witness :
    ∃ pre,
      (process
        { key := "github_x", fetch := FetchOutcome.found ⟨"2.0", [], none⟩,
          force_notify := false, upload_assets := false, dl := fun _ => true,
          notifiers := [SendOutcome.ok, SendOutcome.raises], notify_raises := false }
        ⟨[("github_x", "1.0")], []⟩).2 = pre ++ [Event.storeWrite "github_x" "2.0"] ∧
      pre.filter isStoreWriteEvent = [] ∧
      pre.filter isSendEvent = (List.range 2).map Event.sendAttempt ∧
      (process
        { key := "github_x", fetch := FetchOutcome.found ⟨"2.0", [], none⟩,
          force_notify := false, upload_assets := false, dl := fun _ => true,
          notifiers := [SendOutcome.ok, SendOutcome.raises], notify_raises := false }
        ⟨[("github_x", "1.0")], []⟩).1.store = set_last_release [("github_x", "1.0")] "github_x" "2.0" :=
  c2_new_release_act_then_commit _ _ ⟨"2.0", [], none⟩ rfl (by decide) rfl

/-- C3: when the adapter fetch raises (caught inside _fetch_latest_release)
or yields an empty/absent release, the entry aborts with no store write, no
notification and no download, and the run driver still processes the
remaining entries exactly as it would from the same state. -/
theorem c3_fetch_failure_isolates_entry
    (e : EntryCtx) (w : WorldState) (rest : List EntryCtx)
    (hf : e.fetch = FetchOutcome.raises ∨ e.fetch = FetchOutcome.noRelease) :
    process e w = (w, []) ∧
    run_entries (e :: rest) w = ((run_entries rest w).1, [] :: (run_entries rest w).2) := by
  have hp : process e w = (w, []) := by
    rcases hf with h | h <;> simp [process, h]
  exact ⟨hp, by simp [run_entries, hp]⟩

theorem c3_fetch_failure_isolates_entry_witness :
    process
      { key := "github_x", fetch := FetchOutcome.raises, force_notify := false,
        upload_assets := false, dl := fun _ => true, notifiers := [SendOutcome.ok],
        notify_raises := false }
      ⟨[("github_x", "1.0")], []⟩ = (⟨[("github_x", "1.0")], []⟩, []) :=
  (c3_fetch_failure_isolates_entry _ ⟨[("github_x", "1.0")], []⟩ [] (Or.inl rfl)).1

/-- C9: every asset path actually downloaded by process_assets is absent from
local storage after _process_and_notify, for every combination of notifier
outcomes and also when the notify step raises (the cleanup runs in a
finally-block). -/
theorem c9_assets_cleaned_after_notify
    (e : EntryCtx) (rel : ReleaseInfo) (files : List String) (p : String)
    (hp : p ∈ (process_assets e.upload_assets rel.assets e.dl).1) :
    p ∉ (process_and_notify e rel files).2.2 := by
  intro hmem
  simp only [process_and_notify, List.mem_filter, decide_eq_true_eq] at hmem
  exact hmem.2 hp

theorem c9_assets_cleaned_after_notify_witness :
    "downloads/app.apk" ∉
      (process_and_notify
        { key := "github_x", fetch := FetchOutcome.found ⟨"2.0", [⟨"app.apk", "d", "a"⟩], none⟩,
          force_notify := false, upload_assets := true, dl := fun _ => true,
          notifiers := [SendOutcome.failed], notify_raises := true }
        ⟨"2.0", [⟨"app.apk", "d", "a"⟩], none⟩ ["downloads/app.apk"]).2.2 :=
  c9_assets_cleaned_after_notify _ _ _ _ (by decide)

/-- src/utils.py lines 77-89, get_notifier: constructing a notifier either
yields a notifier or raises (unsupported type, bad config); modelled
abstractly as an Except per configured notifier.  Notifier instances are
identified by Nat tags. -/
def get_notifier_outcome (c : Except String Nat) : Except String Nat :=
  c

/-- src/main.py lines 272-283, the notifier initialization of run_full_check:
notifiers starts as the empty list before the try block; the list
comprehension building all notifiers aborts on the first raising constructor,
and the except branch keeps the pre-try value filtered for None entries. -/
def init_notifiers_full_check (confs : List (Except String Nat)) : List Nat :=
  let pre_try : List Nat := []
  match confs.mapM get_notifier_outcome with
  | Except.ok ns => ns
  | Except.error _ => pre_try.filter (fun _ => true)

/-- C4 (code bug): with three configured notifiers of which only the middle
constructor fails, the code ends the init phase with zero active notifiers —
the two successfully constructed ones are NOT retained, contradicting the
claim (and the code's own log message about proceeding with successfully
initialized notifiers); without a failure all notifiers are retained. -/
theorem c4_constructor_failure_drops_all_notifiers :
    init_notifiers_full_check [Except.ok 1, Except.error "bad config", Except.ok 2] = [] ∧
    init_notifiers_full_check [Except.ok 1, Except.ok 2] = [1, 2] :=
  ⟨rfl, rfl⟩

/-- Exceptions that can arise from one download attempt in src/utils.py
download_asset: requests transport errors and requests.HTTPError (raised by
response.raise_for_status for 4xx/5xx) are both subclasses of
requests.RequestException; anything else (e.g. an OS error while writing the
file) is not. -/
inductive DlError where
  | connectionError
  | httpError (status : Nat)
  | otherError
deriving DecidableEq

/-- retry_if_exception_type(requests.RequestException) from src/utils.py
lines 59-64: requests.HTTPError is a subclass of requests.RequestException,
so it satisfies the retry predicate. -/
def isRequestException : DlError → Bool
  | .connectionError => true
  | .httpError _ => true
  | .otherError => false

/-- One body execution of download_asset (src/utils.py lines 66-74):
requests.get can raise a transport error; otherwise raise_for_status raises
HTTPError when the status code is 4xx/5xx; otherwise the attempt succeeds. -/
inductive AttemptBehavior where
  | transportFail
  | status (code : Nat)
deriving DecidableEq

def attempt_result : AttemptBehavior → Except DlError Unit
  | .transportFail => Except.error DlError.connectionError
  | .status c => if 400 <= c then Except.error (DlError.httpError c) else Except.ok ()

/-- tenacity.wait_exponential(multiplier=1, min=2, max=10) evaluated after
attempt number n: max(min, min(multiplier * 2 ^ (n - 1), max)). -/
def wait_exponential (attempt_number : Nat) : Nat :=
  max 2 (min (1 * 2 ^ (attempt_number - 1)) 10)

/-- The tenacity retry loop of download_asset with stop_after_attempt(5),
retry_if_exception_type(requests.RequestException) and reraise=True.
The budget counts retries still permitted after the current attempt
(4 when starting at attempt 1); at budget 0 the outcome of the final
permitted attempt is returned or re-raised as is.  Returns the final result,
the list of sleeps performed between attempts, and the number of attempts
made. -/
def retry_loop (outcome : Nat → Except DlError Unit) (attempt : Nat) :
    Nat → Except DlError Unit × List Nat × Nat
  | 0 => (outcome attempt, [], 1)
  | b + 1 =>
    match outcome attempt with
    | Except.ok _ => (Except.ok (), [], 1)
    | Except.error e =>
      if isRequestException e then
        let r := retry_loop outcome (attempt + 1) b
        (r.1, wait_exponential attempt :: r.2.1, r.2.2 + 1)
      else (Except.error e, [], 1)

/-- src/utils.py lines 59-74, download_asset under its @retry decorator:
attempts are numbered from 1 and stop_after_attempt(5) allows 4 retries after
the first attempt. -/
def download_asset (outcome : Nat → Except DlError Unit) :
    Except DlError Unit × List Nat × Nat :=
  retry_loop outcome 1 4

/-- C5 (counterexample): a response with HTTP status 404 on every attempt is
an application error distinguishable from a transport error, yet the code
performs all 5 attempts, sleeping 2, 2, 4, 8 between them, before re-raising
the HTTPError — the claim says such errors are not retried (which would mean
a single attempt and no sleeps). -/
theorem c5_counterexample :
    (download_asset (fun _ => attempt_result (AttemptBehavior.status 404))).2.2 = 5 ∧
    (download_asset (fun _ => attempt_result (AttemptBehavior.status 404))).2.1 = [2, 2, 4, 8] ∧
    (download_asset (fun _ => attempt_result (AttemptBehavior.status 404))).1 =
      Except.error (DlError.httpError 404) := by
  refine ⟨rfl, rfl, rfl⟩

theorem retry_loop_attempts_le (outcome : Nat → Except DlError Unit) (a b : Nat) :
    (retry_loop outcome a b).2.2 <= b + 1 := by
  induction b generalizing a with
  | zero => simp [retry_loop]
  | succ b ih =>
    simp only [retry_loop]
    rcases outcome a with e | u
    · by_cases h : isRequestException e = true
      · simp only [h, if_true]
        have := ih (a + 1)
        omega
      · simp only [h]
        simp
    · simp

/-- C5 (amended): download_asset makes at most 5 attempts; a persistent
requests.RequestException — including HTTPError for a 4xx/5xx response, which
requests does distinguish but the retry predicate does not exclude — is
retried through all 5 attempts with sleeps 2, 2, 4, 8 (wait_exponential with
multiplier 1, min 2, max 10) and the last error is re-raised; an error that
is not a requests.RequestException is raised immediately after one attempt;
a successful first attempt performs no retry and no sleep. -/
theorem c5_retry_policy (e : DlError) :
    (∀ outcome, (download_asset outcome).2.2 <= 5) ∧
    (isRequestException e = true →
      download_asset (fun _ => Except.error e) = (Except.error e, [2, 2, 4, 8], 5)) ∧
    (isRequestException e = false →
      download_asset (fun _ => Except.error e) = (Except.error e, [], 1)) ∧
    download_asset (fun _ => Except.ok ()) = (Except.ok (), [], 1) := by
  refine ⟨fun outcome => retry_loop_attempts_le outcome 1 4, ?_, ?_, rfl⟩
  · intro h
    simp [download_asset, retry_loop, h, wait_exponential]
  · intro h
    simp [download_asset, retry_loop, h]

theorem c5_retry_policy_witness :
    download_asset (fun _ => Except.error (DlError.httpError 500)) =
      (Except.error (DlError.httpError 500), [2, 2, 4, 8], 5) ∧
    download_asset (fun _ => Except.error DlError.otherError) =
      (Except.error DlError.otherError, [], 1) :=
  ⟨(c5_retry_policy (DlError.httpError 500)).2.1 rfl,
   (c5_retry_policy DlError.otherError).2.2.1 rfl⟩

/-- Configuration values as they appear in resolved watcher configs (YAML
scalars and lists).  A Python list value is not hashable, so it triggers the
TypeError fallback in _get_watcher. -/
inductive ConfVal where
  | str (s : String)
  | int (n : Int)
  | bool (b : Bool)
  | strlist (xs : List String)
deriving DecidableEq

def ConfVal.hashable : ConfVal → Bool
  | .strlist _ => false
  | _ => true

/-- A configuration dict as an association list with unique keys. -/
abbrev Conf := List (String × ConfVal)

/-- Cache keys computed by RepoProcessor._get_watcher (src/main.py lines
95-102).  The normal key pairs the watcher key with
hash(frozenset(sorted(merged_conf.items()))); the frozenset of the items of a
dict is order-independent, modelled as the multiset of key/value pairs (the
Python hash is modelled as injective on item sets).  When any value is
unhashable the except-TypeError fallback keys on id(self.merged_conf). -/
inductive CacheKey where
  | byHash (watcher_key : String) (items : Multiset (String × ConfVal))
  | byId (watcher_key : String) (obj_id : Nat)
deriving DecidableEq

def cache_key_of (watcher_key : String) (conf : Conf) (obj_id : Nat) : CacheKey :=
  if conf.all (fun kv => kv.2.hashable) then
    CacheKey.byHash watcher_key (conf : Multiset (String × ConfVal))
  else
    CacheKey.byId watcher_key obj_id

/-- The watcher cache shared across repo processors (src/main.py line 288);
watcher instances are identified by the Nat counter used to build them. -/
structure WatcherCache where
  entries : List (CacheKey × Nat)
  next_id : Nat

/-- The lookup-or-build step of _get_watcher (src/main.py lines 104-114):
reuse the cached instance when the cache key is present, otherwise build a
fresh instance and insert it under the key. -/
def get_watcher (k : CacheKey) (c : WatcherCache) : Nat × WatcherCache :=
  match c.entries.find? (fun kv => decide (kv.1 = k)) with
  | some kv => (kv.2, c)
  | none => (c.next_id, ⟨(k, c.next_id) :: c.entries, c.next_id + 1⟩)

/-- Two consecutive entries resolved against one shared, initially empty
watcher cache, as run_full_check does; returns the two obtained instances. -/
def build_two (k1 k2 : CacheKey) : Nat × Nat :=
  let r1 := get_watcher k1 ⟨[], 0⟩
  let r2 := get_watcher k2 r1.2
  (r1.1, r2.1)

theorem build_two_same (k : CacheKey) : (build_two k k).1 = (build_two k k).2 := by
  simp [build_two, get_watcher, List.find?]

theorem build_two_ne (k1 k2 : CacheKey) (h : k1 ≠ k2) :
    (build_two k1 k2).1 ≠ (build_two k1 k2).2 := by
  simp [build_two, get_watcher, List.find?, h]

/-- C6: the adapter cache key is key-order independent over the item set of a
hashable resolved config — two entries with the same watcher key and
permuted-but-equal configs share one cached watcher instance; configs whose
item sets differ (in particular in one key/value) yield distinct instances;
and a config containing an unhashable value falls back to the identity of the
config object, so two structurally equal but distinct unhashable configs do
not share an instance. -/
theorem c6_cache_key_stability (wk : String) (c1 c2 : Conf) (id1 id2 : Nat) :
    (c1.Perm c2 → (∀ kv ∈ c1, kv.2.hashable = true) →
      (build_two (cache_key_of wk c1 id1) (cache_key_of wk c2 id2)).1 =
        (build_two (cache_key_of wk c1 id1) (cache_key_of wk c2 id2)).2) ∧
    ((∀ kv ∈ c1, kv.2.hashable = true) → (∀ kv ∈ c2, kv.2.hashable = true) →
      ¬ c1.Perm c2 →
      (build_two (cache_key_of wk c1 id1) (cache_key_of wk c2 id2)).1 ≠
        (build_two (cache_key_of wk c1 id1) (cache_key_of wk c2 id2)).2) ∧
    ((∃ kv ∈ c1, kv.2.hashable = false) → id1 ≠ id2 →
      (build_two (cache_key_of wk c1 id1) (cache_key_of wk c1 id2)).1 ≠
        (build_two (cache_key_of wk c1 id1) (cache_key_of wk c1 id2)).2) := by
  refine ⟨?_, ?_, ?_⟩
  · intro hper hh
    have hh2 : ∀ kv ∈ c2, kv.2.hashable = true := fun kv hkv => hh kv (hper.mem_iff.mpr hkv)
    have e1 : cache_key_of wk c1 id1 = CacheKey.byHash wk (c1 : Multiset (String × ConfVal)) := by
      unfold cache_key_of
      rw [if_pos (List.all_eq_true.mpr hh)]
    have e2 : cache_key_of wk c2 id2 = CacheKey.byHash wk (c2 : Multiset (String × ConfVal)) := by
      unfold cache_key_of
      rw [if_pos (List.all_eq_true.mpr hh2)]
    have hms : (c1 : Multiset (String × ConfVal)) = (c2 : Multiset (String × ConfVal)) :=
      Multiset.coe_eq_coe.mpr hper
    rw [e1, e2, hms]
    exact build_two_same _
  · intro hh hh2 hnper
    have e1 : cache_key_of wk c1 id1 = CacheKey.byHash wk (c1 : Multiset (String × ConfVal)) := by
      unfold cache_key_of
      rw [if_pos (List.all_eq_true.mpr hh)]
    have e2 : cache_key_of wk c2 id2 = CacheKey.byHash wk (c2 : Multiset (String × ConfVal)) := by
      unfold cache_key_of
      rw [if_pos (List.all_eq_true.mpr hh2)]
    rw [e1, e2]
    refine build_two_ne _ _ (fun hEq => hnper ?_)
    exact Multiset.coe_eq_coe.mp (by injection hEq)
  · intro hun hid
    obtain ⟨kv, hkv, hkvf⟩ := hun
    have hnall : ¬ (c1.all (fun kv => kv.2.hashable) = true) := by
      intro hall
      have := List.all_eq_true.mp hall kv hkv
      rw [hkvf] at this
      exact Bool.false_ne_true this
    have e1 : cache_key_of wk c1 id1 = CacheKey.byId wk id1 := by
      unfold cache_key_of
      rw [if_neg hnall]
    have e2 : cache_key_of wk c1 id2 = CacheKey.byId wk id2 := by
      unfold cache_key_of
      rw [if_neg hnall]
    rw [e1, e2]
    exact build_two_ne _ _ (fun hEq => hid (by injection hEq))

theorem c6_cache_key_stability_witness :
    (build_two
      (cache_key_of "github" [("token", ConfVal.str "x"), ("retries", ConfVal.int 1)] 100)
      (cache_key_of "github" [("retries", ConfVal.int 1), ("token", ConfVal.str "x")] 200)).1 =
      (build_two
        (cache_key_of "github" [("token", ConfVal.str "x"), ("retries", ConfVal.int 1)] 100)
        (cache_key_of "github" [("retries", ConfVal.int 1), ("token", ConfVal.str "x")] 200)).2 ∧
    (build_two
      (cache_key_of "github" [("token", ConfVal.str "x")] 100)
      (cache_key_of "github" [("token", ConfVal.str "y")] 200)).1 ≠
      (build_two
        (cache_key_of "github" [("token", ConfVal.str "x")] 100)
        (cache_key_of "github" [("token", ConfVal.str "y")] 200)).2 ∧
    (build_two
      (cache_key_of "apkmirror" [("arch", ConfVal.strlist ["arm64"])] 100)
      (cache_key_of "apkmirror" [("arch", ConfVal.strlist ["arm64"])] 200)).1 ≠
      (build_two
        (cache_key_of "apkmirror" [("arch", ConfVal.strlist ["arm64"])] 100)
        (cache_key_of "apkmirror" [("arch", ConfVal.strlist ["arm64"])] 200)).2 :=
  ⟨(c6_cache_key_stability "github" _ _ 100 200).1 (by decide) (by decide),
   (c6_cache_key_stability "github" _ _ 100 200).2.1 (by decide) (by decide) (by decide),
   (c6_cache_key_stability "apkmirror" [("arch", ConfVal.strlist ["arm64"])]
      [("arch", ConfVal.strlist ["arm64"])] 100 200).2.2 (by decide) (by decide)⟩

/-- member.startswith(f"{repo}:") from src/persistence/redis_store.py,
modelled on the character lists of the strings. -/
def member_matches (repo m : String) : Bool :=
  (repo ++ ":").data.isPrefixOf m.data

/-- member.split(":", 1)[1]: everything after the first colon of the member.
Only evaluated on members that contain a colon — guaranteed by the
startswith guard in the source (on a colon-free string Python would raise
IndexError; the model returns ""). -/
def after_first_colon (m : String) : String :=
  String.mk ((m.data.dropWhile (fun c => c != ':')).drop 1)

/-- RedisStore.get_last_release (src/persistence/redis_store.py lines 26-39):
scan the members of the one backing set for the first member starting with
"repo:" and return the part after the first colon.  The redis set is
modelled as a list of distinct member strings; smembers iteration order is
the list order. -/
def redis_get_last_release (members : List String) (repo : String) : Option String :=
  match members.find? (member_matches repo) with
  | some m => some (after_first_colon m)
  | none => none

/-- RedisStore.set_last_release (src/persistence/redis_store.py lines 41-54):
remove the first member matching the "repo:" prefix (the removal loop breaks
after one srem), then sadd "repo:tag" (a no-op when already a member). -/
def redis_set_last_release (members : List String) (repo tag : String) : List String :=
  let new_entry := repo ++ ":" ++ tag
  let remaining :=
    match members.find? (member_matches repo) with
    | some m => members.erase m
    | none => members
  if new_entry ∈ remaining then remaining else remaining ++ [new_entry]

theorem member_matches_self (repo tag : String) :
    member_matches repo (repo ++ ":" ++ tag) = true := by
  simp [member_matches]

theorem dropWhile_colon (l rest : List Char) (h : ∀ c ∈ l, c ≠ ':') :
    (l ++ ':' :: rest).dropWhile (fun c => c != ':') = ':' :: rest := by
  induction l with
  | nil => simp [List.dropWhile_cons]
  | cons c tl ih =>
    have hc : c ≠ ':' := h c (List.mem_cons_self c tl)
    simp only [List.cons_append, List.dropWhile_cons]
    rw [if_pos (by simpa using hc)]
    exact ih (fun x hx => h x (List.mem_cons_of_mem _ hx))

theorem after_first_colon_self (repo tag : String)
    (hnc : ∀ c ∈ repo.data, c ≠ ':') :
    after_first_colon (repo ++ ":" ++ tag) = tag := by
  unfold after_first_colon
  have hdata : (repo ++ ":" ++ tag).data = repo.data ++ ':' :: tag.data := by
    simp
  rw [hdata, dropWhile_colon repo.data tag.data hnc]
  cases tag
  rfl

/-- The shape of the member set after set_last_release, under the invariant
that at most one prior member carried the key prefix: a remainder with no
matching member, followed by the freshly added member. -/
theorem redis_set_shape (members : List String) (repo tag : String)
    (hnd : members.Nodup)
    (hone : (members.filter (member_matches repo)).length <= 1) :
    ∃ rem, redis_set_last_release members repo tag = rem ++ [repo ++ ":" ++ tag] ∧
      ∀ m ∈ rem, member_matches repo m = false := by
  have hmatch := member_matches_self repo tag
  simp only [redis_set_last_release]
  rcases hfind : members.find? (member_matches repo) with _ | m0
  · have hnone : ∀ m ∈ members, member_matches repo m = false := by
      intro m hm
      simpa using List.find?_eq_none.mp hfind m hm
    have hnotin : (repo ++ ":" ++ tag) ∉ members := by
      intro hmem
      have := hnone _ hmem
      rw [hmatch] at this
      simp at this
    rw [if_neg hnotin]
    exact ⟨members, rfl, hnone⟩
  · have pm0 : member_matches repo m0 = true := List.find?_some hfind
    have m0mem : m0 ∈ members := List.mem_of_find?_eq_some hfind
    have hmemf : m0 ∈ members.filter (member_matches repo) :=
      List.mem_filter.mpr ⟨m0mem, pm0⟩
    have hlen1 : (members.filter (member_matches repo)).length = 1 := by
      have hpos : 0 < (members.filter (member_matches repo)).length :=
        List.length_pos.mpr (List.ne_nil_of_mem hmemf)
      omega
    obtain ⟨a, ha⟩ := List.length_eq_one.mp hlen1
    have ham0 : a = m0 := by
      rw [ha] at hmemf
      exact (List.mem_singleton.mp hmemf).symm
    have hfilter : members.filter (member_matches repo) = [m0] := by
      rw [ha, ham0]
    have herase : ∀ m ∈ members.erase m0, member_matches repo m = false := by
      intro m hm
      rcases (List.Nodup.mem_erase_iff hnd).mp hm with ⟨hne_, hmem⟩
      by_contra hb
      have hb' : member_matches repo m = true := by
        simpa using hb
      have : m ∈ members.filter (member_matches repo) :=
        List.mem_filter.mpr ⟨hmem, hb'⟩
      rw [hfilter] at this
      simp at this
      exact hne_ this
    have hnotin : (repo ++ ":" ++ tag) ∉ members.erase m0 := by
      intro hmem
      have := herase _ hmem
      rw [hmatch] at this
      simp at this
    rw [if_neg hnotin]
    exact ⟨members.erase m0, rfl, herase⟩

/-- C7 (counterexample): the claim fails for arbitrary prior store states.
With a prior state holding two stale members under the key prefix "k:", after
setLastTag(k, t) two prefixed members remain (not exactly one) and
getLastTag(k) does not return t; and for a key that itself contains a colon
(keys are adapterKey_repoID, so a repo id with a colon produces one), the
split-at-first-colon read-back returns the wrong value even from an empty
prior state. -/
theorem c7_counterexample :
    ((redis_set_last_release ["k:a", "k:b"] "k" "t").filter (member_matches "k")).length = 2 ∧
    redis_get_last_release (redis_set_last_release ["k:a", "k:b"] "k" "t") "k" = some "b" ∧
    redis_get_last_release (redis_set_last_release [] "dockerhub_img:v1" "t") "dockerhub_img:v1"
      = some "v1:t" := by
  refine ⟨by decide, by decide, by decide⟩

/-- C7 (amended): on the keyed-store variant, for every prior store state in
which at most one set member carries the prefix "k:" (the invariant the store
itself maintains) and whose persistence key k contains no colon: after
setLastTag(k, t), getLastTag(k) returns t and the backing set contains
exactly one member with prefix "k:", namely "k:t". -/
theorem c7_keyed_store_set_get
    (members : List String) (repo tag : String)
    (hnd : members.Nodup)
    (hone : (members.filter (member_matches repo)).length <= 1)
    (hnc : ∀ c ∈ repo.data, c ≠ ':') :
    redis_get_last_release (redis_set_last_release members repo tag) repo = some tag ∧
    (redis_set_last_release members repo tag).filter (member_matches repo) =
      [repo ++ ":" ++ tag] := by
  obtain ⟨rem, hshape, hremf⟩ := redis_set_shape members repo tag hnd hone
  have hmatch := member_matches_self repo tag
  constructor
  · rw [redis_get_last_release, hshape, List.find?_append]
    have hnone : rem.find? (member_matches repo) = none :=
      List.find?_eq_none.mpr (fun m hm => by simp [hremf m hm])
    rw [hnone, Option.none_or, List.find?_cons_of_pos _ hmatch]
    simp [after_first_colon_self repo tag hnc]
  · rw [hshape, List.filter_append, List.filter_eq_nil_iff.mpr
      (fun m hm => by simp [hremf m hm])]
    simp [hmatch]

theorem c7_keyed_store_set_get_witness :
    redis_get_last_release
      (redis_set_last_release ["github_x:1.0", "pypi_y:3.2"] "github_x" "2.0") "github_x"
      = some "2.0" ∧
    (redis_set_last_release ["github_x:1.0", "pypi_y:3.2"] "github_x" "2.0").filter
      (member_matches "github_x") = ["github_x" ++ ":" ++ "2.0"] :=
  c7_keyed_store_set_get ["github_x:1.0", "pypi_y:3.2"] "github_x" "2.0"
    (by decide) (by decide) (by decide)

/-- The two persistence implementations present in the repository
(src/persistence/redis_store.py and src/persistence/file_store.py). -/
inductive Backend where
  | redisStore
  | fileBackend
deriving DecidableEq

/-- src/utils.py lines 52-56, get_backend: only the "redis" persistence type
is dispatched; every other type — including "file", although FileBackend
exists in src/persistence/file_store.py — raises NotImplementedError. -/
def get_backend (ptype : String) : Except String Backend :=
  if ptype = "redis" then Except.ok Backend.redisStore
  else Except.error ("[ERROR] Persistence backend " ++ ptype ++ " not supported")

/-- src/persistence/file_store.py, FileBackend.get_last_release:
self.data.get(repo) over the flat JSON object, modelled as an association
list. -/
def file_get_last_release (data : List (String × String)) (repo : String) : Option String :=
  data.lookup repo

/-- src/persistence/file_store.py, FileBackend.set_last_release:
self.data[repo] = tag followed by a save; modelled with the same lookup
semantics as the Python dict assignment. -/
def file_set_last_release (data : List (String × String)) (repo tag : String) :
    List (String × String) :=
  (repo, tag) :: data.filter (fun kv => kv.1 ≠ repo)

/-- C8 (counterexample): a persistence configuration selecting the
file-backed variant does not yield a store — get_backend raises
NotImplementedError for every type other than "redis". -/
theorem c8_counterexample :
    get_backend "file" = Except.error "[ERROR] Persistence backend file not supported" :=
  rfl

/-- C8 (amended): the state-store resolver returns a working store only for
the keyed-store ("redis") variant and fails with NotImplementedError for any
other persistence type, including the file-backed variant; the file-backed
implementation itself (a flat JSON map from persistence key to tag,
satisfying get-after-set) exists in the repository but is not constructible
through the resolver. -/
theorem c8_backend_resolver (t : String) (ht : t ≠ "redis")
    (data : List (String × String)) (k v : String) :
    get_backend "redis" = Except.ok Backend.redisStore ∧
    (∃ msg, get_backend t = Except.error msg) ∧
    file_get_last_release (file_set_last_release data k v) k = some v := by
  refine ⟨rfl, ?_, ?_⟩
  · exact ⟨"[ERROR] Persistence backend " ++ t ++ " not supported",
      by rw [get_backend, if_neg ht]⟩
  · simp [file_get_last_release, file_set_last_release, List.lookup]

theorem c8_backend_resolver_witness :
    get_backend "redis" = Except.ok Backend.redisStore ∧
    (∃ msg, get_backend "file" = Except.error msg) ∧
    file_get_last_release (file_set_last_release [("pypi_y", "3.2")] "github_x" "2.0")
      "github_x" = some "2.0" :=
  c8_backend_resolver "file" (by decide) [("pypi_y", "3.2")] "github_x" "2.0"

/-- src/env_parser.py, _resolve_value_recursive at the value level: string
values are rewritten by the environment substitution rs (the effect of re.sub
over the placeholder pattern with the process environment fixed, in
non-strict mode), numbers and booleans are returned unchanged, and lists
resolve each item recursively. -/
def resolve_value (rs : String → String) : ConfVal → ConfVal
  | .str s => .str (rs s)
  | .int n => .int n
  | .bool b => .bool b
  | .strlist xs => .strlist (xs.map rs)

/-- src/env_parser.py, resolve_env_placeholders_recursive: a new dict with
every value resolved. -/
def resolve_env_placeholders_recursive (rs : String → String) (config : Conf) : Conf :=
  config.map (fun kv => (kv.1, resolve_value rs kv.2))

/-- One repository entry from the config file as read by RepoProcessor
(src/main.py lines 82-84): repo id, watcher key, per-entry config override
(defaulting to empty). -/
structure RepoEntry where
  repo : String
  watcher : String
  config : Conf

/-- src/main.py lines 232-237, check_single_repo: the single-repo entry is
always constructed with an empty per-entry config override. -/
def single_repo_entry (repo watcher_type : String) : RepoEntry :=
  { repo := repo, watcher := watcher_type, config := [] }

/-- The Python dict merge {**base, **override} of _get_watcher (src/main.py
line 92) on association lists with unique keys: base keys take the override
value when present, and override keys absent from base are appended. -/
def dict_merge (base override : Conf) : Conf :=
  base.map (fun kv => (kv.1, (override.lookup kv.1).getD kv.2)) ++
    override.filter (fun kv => (base.lookup kv.1).isNone)

/-- src/main.py lines 92-93: merged_conf_raw = {**base config, **override},
then environment placeholders resolved. -/
def merged_conf (rs : String → String) (base_config override : Conf) : Conf :=
  resolve_env_placeholders_recursive rs (dict_merge base_config override)

/-- C10: in single-repository mode the processed entry is always constructed
with an empty per-entry config override, so the merged adapter configuration
equals the base watcher configuration after environment resolution — whatever
override the configuration file records for that repository is never
consulted, even when the repository was found there. -/
theorem c10_single_repo_ignores_override (rs : String → String)
    (repo watcher_type : String) (base_config : Conf) :
    merged_conf rs base_config (single_repo_entry repo watcher_type).config =
      resolve_env_placeholders_recursive rs base_config := by
  simp [merged_conf, single_repo_entry, dict_merge]

end ReleaseTracker
